import Mathlib

/-!
Shallow embedding of `src/contracts/src.ts/deploy.ts` (deployment
orchestration script for the zkSync "Franklin" contracts) and proofs about
the claims on its behaviour.

Modelling conventions:
* `process.env` is an abstract map `Env := String → Option String`
  (`none` models an unset variable, JS `undefined`).
* JS truthiness of `process.env.X || dflt` is modelled by `envOr`
  (both `undefined` and the empty string are falsy).
* The address bookkeeping object `this.addresses` is the structure
  `Addresses` together with the string-keyed lookup `Addresses.get`.
* External effects (contract deployment, HTTP POST/GET responses) are
  oracles passed in as functions; the script's behaviour is a pure
  function of those oracles, emitting a trace of events.
* `String.prototype.includes` is `strIncludes`; `String.prototype.slice(n)`
  is `strSlice`.
* ABI encoding is delegated to external libraries by the script, so it is
  modelled symbolically: `abi.rawEncode(types, values)` is modelled as the
  pair of its arguments (constructor `CtorVal.enc`), and
  `ethers.utils.defaultAbiCoder.encode` is an abstract function parameter.
-/

namespace ZkDeploy

/-- Boolean test that `p` is a prefix of the character list `l`. -/
def charsPrefix : List Char → List Char → Bool
  | [], _ => true
  | _ :: _, [] => false
  | a :: as, b :: bs => a == b && charsPrefix as bs

/-- Boolean substring test on character lists: does `s` contain `sub`? -/
def charsContain : List Char → List Char → Bool
  | [], sub => sub.isEmpty
  | s@(_ :: rest), sub => charsPrefix sub s || charsContain rest sub

/-- Model of JS `s.includes(sub)`. -/
def strIncludes (s sub : String) : Bool :=
  charsContain s.toList sub.toList

/-- Model of JS `s.slice(n)` for a nonnegative `n` (drop the first `n` characters). -/
def strSlice (s : String) (n : Nat) : String :=
  String.mk (s.toList.drop n)

/-- The process environment: a map from variable names to optional values. -/
def Env : Type := String → Option String

/-- Model of JS `env_value || dflt`: both `undefined` and `""` are falsy. -/
def envOr (e : Env) (key dflt : String) : String :=
  match e key with
  | none => dflt
  | some s => if s = "" then dflt else s

/-- The literal `ethers.constants.HashZero`. -/
def hashZero : String :=
  "0x0000000000000000000000000000000000000000000000000000000000000000"

/-- The `this.addresses` bookkeeping of the `Deployer` class. Fields are
`Option String` because environment variables may be unset. -/
structure Addresses where
  governanceTarget : Option String
  verifierTarget : Option String
  franklinTarget : Option String
  governance : Option String
  verifier : Option String
  franklin : Option String
  upgradeGatekeeper : Option String
deriving DecidableEq, Repr

/-- String-keyed lookup `this.addresses[name]`. -/
def Addresses.get (a : Addresses) : String → Option String
  | "GovernanceTarget" => a.governanceTarget
  | "VerifierTarget" => a.verifierTarget
  | "FranklinTarget" => a.franklinTarget
  | "Governance" => a.governance
  | "Verifier" => a.verifier
  | "Franklin" => a.franklin
  | "UpgradeGatekeeper" => a.upgradeGatekeeper
  | _ => none

/-- The `this.addresses` initialisation in the `Deployer` constructor:
every entry is read from the corresponding environment variable. -/
def initAddresses (e : Env) : Addresses :=
  { governanceTarget := e "GOVERNANCE_TARGET_ADDR"
    verifierTarget := e "VERIFIER_TARGET_ADDR"
    franklinTarget := e "CONTRACT_TARGET_ADDR"
    governance := e "GOVERNANCE_ADDR"
    verifier := e "VERIFIER_ADDR"
    franklin := e "CONTRACT_ADDR"
    upgradeGatekeeper := e "UPGRADE_GATEKEEPER_ADDR" }

/-- The `this.deployTransactionHash` initialisation in the constructor,
together with the addresses: the `Deployer` state the script mutates. -/
structure DState where
  addresses : Addresses
  govTxHash : Option String
  franklinTxHash : Option String
deriving DecidableEq, Repr

/-- The `Deployer` constructor state (addresses and genesis tx hashes from
the environment). -/
def initDState (e : Env) : DState :=
  { addresses := initAddresses e
    govTxHash := e "GOVERNANCE_GENESIS_TX_HASH"
    franklinTxHash := e "CONTRACT_GENESIS_TX_HASH" }

/-- `Deployer.initializationArgs(contractName)`: the pair of solidity type
names and argument values handed to `abi.rawEncode`. Values are
`Option String` since environment variables may be unset. Keys other than
the three proxied contracts yield `none` (JS `undefined`). -/
def initializationArgs (e : Env) (a : Addresses) (walletAddress : String) :
    String → Option (List String × List (Option String))
  | "Governance" => some (["address"], [some walletAddress])
  | "Verifier" => some ([], [])
  | "Franklin" => some (["address", "address", "address", "bytes32"],
      [a.governance,
       a.verifier,
       e "OPERATOR_FRANKLIN_ADDRESS",
       some (envOr e "GENESIS_ROOT" hashZero)])
  | _ => none

/-- A constructor-argument value as the script builds it: either an address
slot from the bookkeeping, or the result of `abi.rawEncode` on the
initialization arguments (kept symbolic as the encoded data itself). -/
inductive CtorVal where
  | addr (a : Option String)
  | enc (payload : Option (List String × List (Option String)))
deriving DecidableEq, Repr

/-- `Deployer.encodedInitializationArgs(contractName)` =
`abi.rawEncode(initArgs, initArgsValues)`, modelled symbolically. -/
def encodedInitializationArgs (e : Env) (a : Addresses) (walletAddress : String)
    (contractName : String) : Option (List String × List (Option String)) :=
  initializationArgs e a walletAddress contractName

/-- `Deployer.constructorArgs(contractName)`. -/
def constructorArgs (e : Env) (a : Addresses) (walletAddress : String) :
    String → Option (List CtorVal)
  | "GovernanceTarget" => some []
  | "VerifierTarget" => some []
  | "FranklinTarget" => some []
  | "Governance" => some [CtorVal.addr a.governanceTarget,
      CtorVal.enc (encodedInitializationArgs e a walletAddress "Governance")]
  | "Verifier" => some [CtorVal.addr a.verifierTarget,
      CtorVal.enc (encodedInitializationArgs e a walletAddress "Verifier")]
  | "Franklin" => some [CtorVal.addr a.franklinTarget,
      CtorVal.enc (encodedInitializationArgs e a walletAddress "Franklin")]
  | "UpgradeGatekeeper" => some [CtorVal.addr a.franklin]
  | _ => none

/-- An ABI entry as `encodedConstructorArgs` inspects it: its JS `type`
field (here `entryType`) and its `inputs` (kept as abstract input specs). -/
structure AbiEntry where
  entryType : String
  inputs : List String
deriving DecidableEq, Repr

/-- `Deployer.encodedConstructorArgs(contractName)`: filter the contract's
ABI for its constructor entry; return `null` if there is none, otherwise
ABI-encode the constructor arguments (via the abstract `encode`, standing
for `ethers.utils.defaultAbiCoder.encode` applied to `iface[0].inputs` and
`args`) and strip the first two characters (`.slice(2)`). -/
def encodedConstructorArgs (contractAbi : List AbiEntry) (args : List CtorVal)
    (encode : List String → List CtorVal → String) : Option String :=
  match contractAbi.filter (fun i => i.entryType == "constructor") with
  | [] => none
  | en :: _ => some (strSlice (encode en.inputs args) 2)

/-- One `deployContract` call as the deploy methods perform it: which
bytecode was deployed, the constructor arguments computed at that moment,
the gas limit, and the address the chain assigned. -/
structure DeployEvent where
  bytecodeName : String
  args : Option (List CtorVal)
  gasLimit : Nat
  resultAddr : String
deriving DecidableEq, Repr

/-- `Deployer.deployGovernance()`: deploy the governance target, record its
address, then deploy the proxy (whose constructor arguments are computed
from the updated bookkeeping), record its address and deploy tx hash.
`targetAddr`, `proxyAddr`, `proxyTxHash` are the chain's responses. -/
def deployGovernanceRun (e : Env) (w : String) (s : DState)
    (targetAddr proxyAddr proxyTxHash : String) : DState × List DeployEvent :=
  let ev1 : DeployEvent :=
    ⟨"GovernanceTarget", constructorArgs e s.addresses w "GovernanceTarget", 3000000, targetAddr⟩
  let a1 := { s.addresses with governanceTarget := some targetAddr }
  let ev2 : DeployEvent :=
    ⟨"Governance", constructorArgs e a1 w "Governance", 3000000, proxyAddr⟩
  let a2 := { a1 with governance := some proxyAddr }
  ({ s with addresses := a2, govTxHash := some proxyTxHash }, [ev1, ev2])

/-- `Deployer.deployVerifier()` (no deploy tx hash is recorded here). -/
def deployVerifierRun (e : Env) (w : String) (s : DState)
    (targetAddr proxyAddr : String) : DState × List DeployEvent :=
  let ev1 : DeployEvent :=
    ⟨"VerifierTarget", constructorArgs e s.addresses w "VerifierTarget", 3000000, targetAddr⟩
  let a1 := { s.addresses with verifierTarget := some targetAddr }
  let ev2 : DeployEvent :=
    ⟨"Verifier", constructorArgs e a1 w "Verifier", 3000000, proxyAddr⟩
  let a2 := { a1 with verifier := some proxyAddr }
  ({ s with addresses := a2 }, [ev1, ev2])

/-- `Deployer.deployFranklin()`: gas limit 6500000 for the target, 3000000
for the proxy; the proxy deploy tx hash is recorded. -/
def deployFranklinRun (e : Env) (w : String) (s : DState)
    (targetAddr proxyAddr proxyTxHash : String) : DState × List DeployEvent :=
  let ev1 : DeployEvent :=
    ⟨"FranklinTarget", constructorArgs e s.addresses w "FranklinTarget", 6500000, targetAddr⟩
  let a1 := { s.addresses with franklinTarget := some targetAddr }
  let ev2 : DeployEvent :=
    ⟨"Franklin", constructorArgs e a1 w "Franklin", 3000000, proxyAddr⟩
  let a2 := { a1 with franklin := some proxyAddr }
  ({ s with addresses := a2, franklinTxHash := some proxyTxHash }, [ev1, ev2])

/-- One step of `Deployer.deployUpgradeGatekeeper()` after the deploy. -/
inductive GkEv where
  | deployGk (args : Option (List CtorVal)) (addr : String)
  | transferMastership (proxyName : String) (newMaster : String)
  | addUpgradeable (addr : Option String)
deriving DecidableEq, Repr

/-- `Deployer.deployUpgradeGatekeeper()`: deploy the gatekeeper (its
constructor arguments are computed from the current bookkeeping), record
its address, transfer mastership of each proxy to it, then register each
proxy as upgradeable. Every contract call in it is `await (await …).wait()`. -/
def deployUpgradeGatekeeperRun (e : Env) (w : String) (s : DState)
    (gkAddr : String) : DState × List GkEv :=
  let args := constructorArgs e s.addresses w "UpgradeGatekeeper"
  let a1 := { s.addresses with upgradeGatekeeper := some gkAddr }
  ({ s with addresses := a1 },
   [GkEv.deployGk args gkAddr,
    GkEv.transferMastership "Governance" gkAddr,
    GkEv.transferMastership "Verifier" gkAddr,
    GkEv.transferMastership "Franklin" gkAddr,
    GkEv.addUpgradeable a1.governance,
    GkEv.addUpgradeable a1.verifier,
    GkEv.addUpgradeable a1.franklin])

/-- The parsed body `r.data` of an Etherscan `verifysourcecode` response:
its `status` (compared against `1`) and `result` string. -/
structure EsResponse where
  status : Nat
  result : String
deriving DecidableEq, Repr

/-- Events of `publishSourceCodeToEtherscan`: POST submissions, sleeps,
the failure log, the `checkverifystatus` polls, and the final log. -/
inductive PubEv where
  | submit (idx : Nat) (r : EsResponse)
  | sleepMs (ms : Nat)
  | logProblem (data : EsResponse)
  | pollStatus (result : String)
  | logPublished (finalStatus : Option String)
deriving DecidableEq, Repr

/-- The string Etherscan returns while a submission is not yet indexed. -/
def unableStr : String := "Unable to locate ContractCode"

/-- The string Etherscan returns while verification is still queued. -/
def pendingStr : String := "Pending in queue"

/-- The `while (retriesLeft --> 0)` polling loop after a successful
submission: `get i` is the `result` field of the i-th `checkverifystatus`
response. Each iteration polls once; if the result still contains
`'Pending in queue'` it sleeps 5000 ms and continues, otherwise it breaks. -/
def pollTrace (get : Nat → String) : Nat → Nat → List PubEv
  | _, 0 => []
  | idx, b + 1 =>
    if strIncludes (get idx) pendingStr then
      PubEv.pollStatus (get idx) :: PubEv.sleepMs 5000 :: pollTrace get (idx + 1) b
    else
      [PubEv.pollStatus (get idx)]

/-- The value of the JS `status` variable after the loop: the result of the
last poll performed (`none` if no poll happened). -/
def lastPollResult : List PubEv → Option String
  | [] => none
  | PubEv.pollStatus s :: rest =>
    match lastPollResult rest with
    | none => some s
    | some t => some t
  | _ :: rest => lastPollResult rest

/-- Whether a run of `publishSourceCodeToEtherscan` returned, or exceeded
the modelling fuel (i.e. recursed deeper than the given bound). -/
inductive PubOutcome where
  | done
  | fuelOut
deriving DecidableEq, Repr

/-- `publishSourceCodeToEtherscan`, fuel-indexed. `post i` is the parsed
body of the i-th `verifysourcecode` POST response; `get i` the i-th
`checkverifystatus` result string. Mirrors the source: the local
`retriesLeft = 20` is re-initialised on every invocation, so the
`retriesLeft > 0` guard before the recursive call always holds. -/
def publishGo (post : Nat → EsResponse) (get : Nat → String) :
    Nat → Nat → PubOutcome × List PubEv
  | _, 0 => (PubOutcome.fuelOut, [])
  | pIdx, fuel + 1 =>
    let r := post pIdx
    let retriesLeft : Nat := 20
    if r.status ≠ 1 then
      if strIncludes r.result unableStr then
        -- await sleep(15000); then the (always-true) retriesLeft > 0 check
        if retriesLeft > 0 then
          let next := publishGo post get (pIdx + 1) fuel
          (next.1, PubEv.submit pIdx r :: PubEv.sleepMs 15000 :: next.2)
        else
          (PubOutcome.done, [PubEv.submit pIdx r, PubEv.sleepMs 15000])
      else
        (PubOutcome.done, [PubEv.submit pIdx r, PubEv.logProblem r])
    else
      let tr := pollTrace get 0 10
      (PubOutcome.done,
       PubEv.submit pIdx r :: tr ++ [PubEv.logPublished (lastPollResult tr)])

/-- Number of `checkverifystatus` polls in a trace. -/
def countPolls (l : List PubEv) : Nat :=
  l.countP fun ev =>
    match ev with
    | PubEv.pollStatus _ => true
    | _ => false

/-- Transaction-level view of a statement: `deployAwait` is an
`ethereum-waffle` `deployContract` call (which resolves only once the
contract is deployed), `submitTx` is an awaited contract call (the await
resolves at submission, not mining), `waitReceipt` is a `.wait()` on the
returned transaction. -/
inductive TxAction where
  | deployAwait (name : String)
  | submitTx (callName : String)
  | waitReceipt (callName : String)
deriving DecidableEq, Repr

/-- Transaction steps of `addTestERC20Token`: deploy the ERC20, `await
erc20.mint(...)` (no `.wait()`), then `await (await
governance.addToken(...)).wait()`. -/
def addTestERC20TokenTxTrace : List TxAction :=
  [TxAction.deployAwait "ERC20Mintable",
   TxAction.submitTx "mint",
   TxAction.submitTx "addToken",
   TxAction.waitReceipt "addToken"]

/-- Transaction steps of `mintTestERC20Token`: submit the mint, then
`await txCall.wait()`. -/
def mintTestERC20TokenTxTrace : List TxAction :=
  [TxAction.submitTx "mint", TxAction.waitReceipt "mint"]

/-- Transaction steps of `addTestNotApprovedERC20Token`: deploy the ERC20,
then `await erc20.mint(...)` with no `.wait()`. -/
def addTestNotApprovedTxTrace : List TxAction :=
  [TxAction.deployAwait "ERC20Mintable", TxAction.submitTx "mint"]

/-- Transaction steps of `deployUpgradeGatekeeper`: each contract call is
`await (await ...).wait()`. -/
def deployUpgradeGatekeeperTxTrace : List TxAction :=
  [TxAction.deployAwait "UpgradeGatekeeper",
   TxAction.submitTx "transferMastership(Governance)",
   TxAction.waitReceipt "transferMastership(Governance)",
   TxAction.submitTx "transferMastership(Verifier)",
   TxAction.waitReceipt "transferMastership(Verifier)",
   TxAction.submitTx "transferMastership(Franklin)",
   TxAction.waitReceipt "transferMastership(Franklin)",
   TxAction.submitTx "addUpgradeable(Governance)",
   TxAction.waitReceipt "addUpgradeable(Governance)",
   TxAction.submitTx "addUpgradeable(Verifier)",
   TxAction.waitReceipt "addUpgradeable(Verifier)",
   TxAction.submitTx "addUpgradeable(Franklin)",
   TxAction.waitReceipt "addUpgradeable(Franklin)"]

/-- Transaction steps of `deployGovernance` (both `deployContract` calls
resolve with the contract deployed). -/
def deployGovernanceTxTrace : List TxAction :=
  [TxAction.deployAwait "GovernanceTarget", TxAction.deployAwait "Governance"]

/-- Transaction steps of `deployVerifier`. -/
def deployVerifierTxTrace : List TxAction :=
  [TxAction.deployAwait "VerifierTarget", TxAction.deployAwait "Verifier"]

/-- Transaction steps of `deployFranklin`. -/
def deployFranklinTxTrace : List TxAction :=
  [TxAction.deployAwait "FranklinTarget", TxAction.deployAwait "Franklin"]

/-- Does every submitted transaction (except calls named in `exempt`) have
its receipt awaited as the immediately following step? -/
def receiptsAwaitedFrom (exempt : List String) : List TxAction → Bool
  | [] => true
  | TxAction.submitTx c :: rest =>
    if exempt.contains c then
      receiptsAwaitedFrom exempt rest
    else
      match rest with
      | TxAction.waitReceipt c2 :: rest2 => c == c2 && receiptsAwaitedFrom exempt rest2
      | _ => false
  | TxAction.deployAwait _ :: rest => receiptsAwaitedFrom exempt rest
  | TxAction.waitReceipt _ :: rest => receiptsAwaitedFrom exempt rest

/-- Does every submitted transaction have its receipt awaited before the
control flow proceeds? -/
def receiptsAwaited (l : List TxAction) : Bool :=
  receiptsAwaitedFrom [] l

/-- Result of calling a JS async function: it either returns a value or
throws. -/
inductive JsResult (α : Type) where
  | ret (v : α)
  | thrown (err : String)
deriving DecidableEq, Repr

/-- `addTestERC20Token(wallet, governance)`. The body's three awaited
effects (deploy, mint, addToken) are oracles that either succeed or throw;
the surrounding try/catch turns any throw into a `console.error` log and a
normal return of `undefined` (`ret none`). On success the ERC20 address is
returned. -/
def addTestERC20TokenRun (deployRes : Except String String)
    (mintRes : String → Except String Unit)
    (addTokenRes : String → Except String Unit) :
    JsResult (Option String) × List String :=
  match deployRes with
  | Except.error err => (JsResult.ret none, ["Add token error:" ++ err])
  | Except.ok erc20 =>
    match mintRes erc20 with
    | Except.error err => (JsResult.ret none, ["Add token error:" ++ err])
    | Except.ok _ =>
      match addTokenRes erc20 with
      | Except.error err => (JsResult.ret none, ["Add token error:" ++ err])
      | Except.ok _ => (JsResult.ret (some erc20), [])

/-- `mintTestERC20Token(wallet, erc20)`: mint then wait, the whole body in
a try/catch that logs `"Mint token error:"` and returns normally. -/
def mintTestERC20TokenRun (mintRes : Except String Unit)
    (waitRes : Except String Unit) :
    JsResult Unit × List String :=
  match mintRes with
  | Except.error err => (JsResult.ret (), ["Mint token error:" ++ err])
  | Except.ok _ =>
    match waitRes with
    | Except.error err => (JsResult.ret (), ["Mint token error:" ++ err])
    | Except.ok _ => (JsResult.ret (), [])

/-- `addTestNotApprovedERC20Token(wallet)`: deploy then mint, in a
try/catch that logs `"Add token error:"` and returns normally. -/
def addTestNotApprovedRun (deployRes : Except String String)
    (mintRes : String → Except String Unit) :
    JsResult (Option String) × List String :=
  match deployRes with
  | Except.error err => (JsResult.ret none, ["Add token error:" ++ err])
  | Except.ok erc20 =>
    match mintRes erc20 with
    | Except.error err => (JsResult.ret none, ["Add token error:" ++ err])
    | Except.ok _ => (JsResult.ret (some erc20), [])

/-- The form fields of the `verifysourcecode` POST built by
`publishSourceCodeToEtherscan` (field `moduleName` is the JS key `module`;
the `constructorArguements` typo is the API's). -/
structure VerifyRequest where
  apikey : Option String
  moduleName : String
  action : String
  contractaddress : Option String
  sourceCode : String
  codeformat : String
  contractname : String
  compilerversion : String
  constructorArguements : Option String
deriving DecidableEq, Repr

/-- The request-construction part of `publishSourceCodeToEtherscan`:
`name` is the `contractname` argument, `src` the flattened solidity input,
`ctorArgs` the result of `encodedConstructorArgs`. -/
def mkVerifyRequest (e : Env) (a : Addresses) (name src : String)
    (ctorArgs : Option String) : VerifyRequest :=
  { apikey := e "ETHERSCAN_API_KEY"
    moduleName := "contract"
    action := "verifysourcecode"
    contractaddress := a.get name
    sourceCode := src
    codeformat := "solidity-standard-json-input"
    contractname := "contracts/" ++ name ++ ".sol" ++ ":" ++ name
    compilerversion := "v0.5.16+commit.9c3226ce"
    constructorArguements := ctorArgs }

/-! Helper lemmas. -/

/-- Unfolding of `initializationArgs` at `"Franklin"`. -/
theorem initializationArgs_franklin (e : Env) (a : Addresses) (w : String) :
    initializationArgs e a w "Franklin" =
      some (["address", "address", "address", "bytes32"],
        [a.governance, a.verifier, e "OPERATOR_FRANKLIN_ADDRESS",
         some (envOr e "GENESIS_ROOT" hashZero)]) := rfl

/-! Theorems for the claims. -/

/-- C8: every contract and target address of a freshly constructed
`Deployer` comes from its environment variable (`GovernanceTarget` from
`GOVERNANCE_TARGET_ADDR`, `VerifierTarget` from `VERIFIER_TARGET_ADDR`,
`FranklinTarget` from `CONTRACT_TARGET_ADDR`, `Governance` from
`GOVERNANCE_ADDR`, `Verifier` from `VERIFIER_ADDR`, `Franklin` from
`CONTRACT_ADDR`, `UpgradeGatekeeper` from `UPGRADE_GATEKEEPER_ADDR`), and
the Etherscan verification request's API key comes from
`ETHERSCAN_API_KEY`. -/
theorem addresses_and_apikey_from_env (e : Env) (a : Addresses)
    (name src : String) (ctorArgs : Option String) :
    (initAddresses e).governanceTarget = e "GOVERNANCE_TARGET_ADDR" ∧
    (initAddresses e).verifierTarget = e "VERIFIER_TARGET_ADDR" ∧
    (initAddresses e).franklinTarget = e "CONTRACT_TARGET_ADDR" ∧
    (initAddresses e).governance = e "GOVERNANCE_ADDR" ∧
    (initAddresses e).verifier = e "VERIFIER_ADDR" ∧
    (initAddresses e).franklin = e "CONTRACT_ADDR" ∧
    (initAddresses e).upgradeGatekeeper = e "UPGRADE_GATEKEEPER_ADDR" ∧
    (mkVerifyRequest e a name src ctorArgs).apikey = e "ETHERSCAN_API_KEY" :=
  ⟨rfl, rfl, rfl, rfl, rfl, rfl, rfl, rfl⟩

/-- C9: the Franklin initialization arguments are, in order, the
Governance address, the Verifier address, `OPERATOR_FRANKLIN_ADDRESS`,
and the genesis root, where the genesis root is `GENESIS_ROOT` when that
variable is set and non-empty and `ethers.constants.HashZero` otherwise. -/
theorem franklin_initialization_args (e : Env) (a : Addresses) (w : String) :
    (∀ s, e "GENESIS_ROOT" = some s → s ≠ "" →
      initializationArgs e a w "Franklin" =
        some (["address", "address", "address", "bytes32"],
          [a.governance, a.verifier, e "OPERATOR_FRANKLIN_ADDRESS", some s])) ∧
    ((e "GENESIS_ROOT" = none ∨ e "GENESIS_ROOT" = some "") →
      initializationArgs e a w "Franklin" =
        some (["address", "address", "address", "bytes32"],
          [a.governance, a.verifier, e "OPERATOR_FRANKLIN_ADDRESS", some hashZero])) := by
  constructor
  · intro s hs hne
    have hv : envOr e "GENESIS_ROOT" hashZero = s := by
      simp [envOr, hs, hne]
    rw [initializationArgs_franklin, hv]
  · intro h
    have hv : envOr e "GENESIS_ROOT" hashZero = hashZero := by
      rcases h with h | h <;> simp [envOr, h]
    rw [initializationArgs_franklin, hv]

/-- Concrete environment used to witness `franklin_initialization_args`. -/
def envW9 : Env := fun k => if k = "GENESIS_ROOT" then some "0xaa" else none

/-- Concrete addresses used to witness `franklin_initialization_args`. -/
def addrW9 : Addresses :=
  ⟨none, none, none, some "0xgov", some "0xver", none, none⟩

/-- Witness for C9 at a concrete environment with a set, non-empty
`GENESIS_ROOT`. -/
theorem franklin_initialization_args_witness :
    initializationArgs envW9 addrW9 "0xw" "Franklin" =
      some (["address", "address", "address", "bytes32"],
        [addrW9.governance, addrW9.verifier,
         envW9 "OPERATOR_FRANKLIN_ADDRESS", some "0xaa"]) :=
  (franklin_initialization_args envW9 addrW9 "0xw").1 "0xaa" (by decide) (by decide)

/-- C10: `encodedConstructorArgs` returns `null` exactly when the ABI has
no entry of type `constructor`; otherwise it returns the ABI encoding of
the constructor arguments with the leading `0x` removed. -/
theorem encodedConstructorArgs_constructor_filter (contractAbi : List AbiEntry)
    (args : List CtorVal) (encode : List String → List CtorVal → String) :
    (encodedConstructorArgs contractAbi args encode = none ↔
      ∀ en ∈ contractAbi, en.entryType ≠ "constructor") ∧
    (∀ en rest,
      contractAbi.filter (fun i => i.entryType == "constructor") = en :: rest →
      ∀ l, encode en.inputs args = String.mk ('0' :: 'x' :: l) →
        encodedConstructorArgs contractAbi args encode = some (String.mk l)) := by
  constructor
  · rcases hf : contractAbi.filter (fun i => i.entryType == "constructor")
      with _ | ⟨en, rest⟩
    · constructor
      · intro _ en2 hen2 hc
        have h2 := List.filter_eq_nil_iff.mp hf en2 hen2
        exact h2 (by simp [hc])
      · intro _
        unfold encodedConstructorArgs
        rw [hf]
    · constructor
      · intro hnone
        unfold encodedConstructorArgs at hnone
        rw [hf] at hnone
        cases hnone
      · intro hall
        exfalso
        have hmem : en ∈ contractAbi.filter (fun i => i.entryType == "constructor") := by
          rw [hf]
          exact List.mem_cons_self _ _
        have hm2 := List.mem_filter.mp hmem
        exact hall en hm2.1 (by simpa using hm2.2)
  · intro en rest h l hl
    unfold encodedConstructorArgs
    rw [h]
    show some (strSlice (encode en.inputs args) 2) = some (String.mk l)
    rw [hl]
    rfl

/-- Concrete ABI used to witness `encodedConstructorArgs_constructor_filter`. -/
def abiW : List AbiEntry := [⟨"function", []⟩, ⟨"constructor", ["address"]⟩]

/-- Concrete abstract encoder used to witness
`encodedConstructorArgs_constructor_filter`. -/
def encodeW : List String → List CtorVal → String := fun _ _ => "0xabcd"

/-- Witness for C10 at a concrete ABI with a constructor entry and an
encoder returning `0xabcd`. -/
theorem encodedConstructorArgs_constructor_filter_witness :
    encodedConstructorArgs abiW [] encodeW = some (String.mk ['a', 'b', 'c', 'd']) :=
  (encodedConstructorArgs_constructor_filter abiW [] encodeW).2
    ⟨"constructor", ["address"]⟩ [] (by decide) ['a', 'b', 'c', 'd'] (by decide)

/-- C4: each of `deployGovernance`, `deployVerifier`, `deployFranklin`
first deploys the target implementation, then deploys a proxy whose
constructor arguments are the just-recorded target address together with
the encoded initialization arguments, and records both the target and the
proxy address in the bookkeeping. -/
theorem deploy_methods_record_target_then_proxy (e : Env) (w : String) (s : DState)
    (gt gp gh vt vp ft fp fh : String) :
    ((deployGovernanceRun e w s gt gp gh).2 =
      [⟨"GovernanceTarget", some [], 3000000, gt⟩,
       ⟨"Governance",
        some [CtorVal.addr (some gt), CtorVal.enc (some (["address"], [some w]))],
        3000000, gp⟩] ∧
     (deployGovernanceRun e w s gt gp gh).1.addresses.governanceTarget = some gt ∧
     (deployGovernanceRun e w s gt gp gh).1.addresses.governance = some gp) ∧
    ((deployVerifierRun e w s vt vp).2 =
      [⟨"VerifierTarget", some [], 3000000, vt⟩,
       ⟨"Verifier",
        some [CtorVal.addr (some vt), CtorVal.enc (some ([], []))],
        3000000, vp⟩] ∧
     (deployVerifierRun e w s vt vp).1.addresses.verifierTarget = some vt ∧
     (deployVerifierRun e w s vt vp).1.addresses.verifier = some vp) ∧
    ((deployFranklinRun e w s ft fp fh).2 =
      [⟨"FranklinTarget", some [], 6500000, ft⟩,
       ⟨"Franklin",
        some [CtorVal.addr (some ft),
          CtorVal.enc (some (["address", "address", "address", "bytes32"],
            [s.addresses.governance, s.addresses.verifier,
             e "OPERATOR_FRANKLIN_ADDRESS", some (envOr e "GENESIS_ROOT" hashZero)]))],
        3000000, fp⟩] ∧
     (deployFranklinRun e w s ft fp fh).1.addresses.franklinTarget = some ft ∧
     (deployFranklinRun e w s ft fp fh).1.addresses.franklin = some fp) :=
  ⟨⟨rfl, rfl, rfl⟩, ⟨rfl, rfl, rfl⟩, ⟨rfl, rfl, rfl⟩⟩

/-- C5: `deployUpgradeGatekeeper` deploys the gatekeeper with the Franklin
proxy address as its (single) constructor argument, then transfers
mastership of the Governance, Verifier and Franklin proxies to it, then
registers those three proxies as upgradeable — in exactly that order —
and records the gatekeeper address. -/
theorem upgrade_gatekeeper_wiring_order (e : Env) (w : String) (s : DState)
    (gk : String) :
    (deployUpgradeGatekeeperRun e w s gk).2 =
      [GkEv.deployGk (some [CtorVal.addr s.addresses.franklin]) gk,
       GkEv.transferMastership "Governance" gk,
       GkEv.transferMastership "Verifier" gk,
       GkEv.transferMastership "Franklin" gk,
       GkEv.addUpgradeable s.addresses.governance,
       GkEv.addUpgradeable s.addresses.verifier,
       GkEv.addUpgradeable s.addresses.franklin] ∧
    (deployUpgradeGatekeeperRun e w s gk).1.addresses.upgradeGatekeeper = some gk :=
  ⟨rfl, rfl⟩

/-- C2: every error thrown inside `addTestERC20Token`,
`mintTestERC20Token` or `addTestNotApprovedERC20Token` is caught by the
surrounding try/catch and is not propagated: the functions return
normally for every oracle outcome, and whichever step throws first —
ERC20 deployment, minting, governance registration (`addToken`), or the
mint receipt wait — the thrown error text is logged with the function's
`console.error` prefix. -/
theorem test_token_errors_caught_and_logged :
    (∀ d m a2, ∃ v, (addTestERC20TokenRun d m a2).1 = JsResult.ret v) ∧
    (∀ m w2, ∃ v, (mintTestERC20TokenRun m w2).1 = JsResult.ret v) ∧
    (∀ d m, ∃ v, (addTestNotApprovedRun d m).1 = JsResult.ret v) ∧
    (∀ err m a2, addTestERC20TokenRun (Except.error err) m a2 =
      (JsResult.ret none, ["Add token error:" ++ err])) ∧
    (∀ d m a2 addr err, d = Except.ok addr → m addr = Except.error err →
      addTestERC20TokenRun d m a2 =
        (JsResult.ret none, ["Add token error:" ++ err])) ∧
    (∀ d m a2 addr err, d = Except.ok addr → m addr = Except.ok () →
      a2 addr = Except.error err →
      addTestERC20TokenRun d m a2 =
        (JsResult.ret none, ["Add token error:" ++ err])) ∧
    (∀ err w2, mintTestERC20TokenRun (Except.error err) w2 =
      (JsResult.ret (), ["Mint token error:" ++ err])) ∧
    (∀ err, mintTestERC20TokenRun (Except.ok ()) (Except.error err) =
      (JsResult.ret (), ["Mint token error:" ++ err])) ∧
    (∀ err m, addTestNotApprovedRun (Except.error err) m =
      (JsResult.ret none, ["Add token error:" ++ err])) ∧
    (∀ d m addr err, d = Except.ok addr → m addr = Except.error err →
      addTestNotApprovedRun d m =
        (JsResult.ret none, ["Add token error:" ++ err])) := by
  refine ⟨?_, ?_, ?_, fun err m a2 => rfl, ?_, ?_, fun err w2 => rfl,
    fun err => rfl, fun err m => rfl, ?_⟩
  · intro d m a2
    cases d with
    | error err => exact ⟨none, rfl⟩
    | ok erc =>
      cases hm : m erc with
      | error err => exact ⟨none, by simp [addTestERC20TokenRun, hm]⟩
      | ok u =>
        cases ha : a2 erc with
        | error err => exact ⟨none, by simp [addTestERC20TokenRun, hm, ha]⟩
        | ok u2 => exact ⟨some erc, by simp [addTestERC20TokenRun, hm, ha]⟩
  · intro m w2
    cases m with
    | error err => exact ⟨(), rfl⟩
    | ok u =>
      cases hw : w2 with
      | error err => exact ⟨(), by simp [mintTestERC20TokenRun]⟩
      | ok u2 => exact ⟨(), by simp [mintTestERC20TokenRun]⟩
  · intro d m
    cases d with
    | error err => exact ⟨none, rfl⟩
    | ok erc =>
      cases hm : m erc with
      | error err => exact ⟨none, by simp [addTestNotApprovedRun, hm]⟩
      | ok u => exact ⟨some erc, by simp [addTestNotApprovedRun, hm]⟩
  · intro d m a2 addr err hd hm
    subst hd
    simp [addTestERC20TokenRun, hm]
  · intro d m a2 addr err hd hm ha
    subst hd
    simp [addTestERC20TokenRun, hm, ha]
  · intro d m addr err hd hm
    subst hd
    simp [addTestNotApprovedRun, hm]

/-- Witness for C2: concrete oracles exercising the hypothesis-bearing
cases — a mint error and an `addToken` (governance registration) error
inside `addTestERC20Token`, and a mint error inside
`addTestNotApprovedERC20Token`. -/
theorem test_token_errors_caught_and_logged_witness :
    addTestERC20TokenRun (Except.ok "0xt") (fun _ => Except.error "mintfail")
      (fun _ => Except.ok ()) =
      (JsResult.ret none, ["Add token error:" ++ "mintfail"]) ∧
    addTestERC20TokenRun (Except.ok "0xt") (fun _ => Except.ok ())
      (fun _ => Except.error "regfail") =
      (JsResult.ret none, ["Add token error:" ++ "regfail"]) ∧
    addTestNotApprovedRun (Except.ok "0xt") (fun _ => Except.error "mintfail") =
      (JsResult.ret none, ["Add token error:" ++ "mintfail"]) :=
  ⟨test_token_errors_caught_and_logged.2.2.2.2.1
      (Except.ok "0xt") (fun _ => Except.error "mintfail") (fun _ => Except.ok ())
      "0xt" "mintfail" rfl rfl,
   test_token_errors_caught_and_logged.2.2.2.2.2.1
      (Except.ok "0xt") (fun _ => Except.ok ()) (fun _ => Except.error "regfail")
      "0xt" "regfail" rfl rfl rfl,
   test_token_errors_caught_and_logged.2.2.2.2.2.2.2.2.2
      (Except.ok "0xt") (fun _ => Except.error "mintfail")
      "0xt" "mintfail" rfl rfl⟩

/-- C3 counterexample: in `addTestERC20Token` the mint transaction is
submitted (`await erc20.mint(...)`) but its receipt is never awaited — the
next step is the `addToken` submission — so the claim that every submitted
transaction has its receipt awaited before proceeding is false. -/
theorem addTestERC20Token_mint_receipt_not_awaited :
    receiptsAwaited addTestERC20TokenTxTrace = false := by decide

/-- C3 amended: every transaction submitted by the script has its receipt
awaited before the control flow proceeds, except the mint transactions
inside `addTestERC20Token` and `addTestNotApprovedERC20Token`, which are
submitted without a `.wait()`. -/
theorem receipts_awaited_except_unwaited_mints :
    receiptsAwaitedFrom ["mint"] addTestERC20TokenTxTrace = true ∧
    receiptsAwaitedFrom ["mint"] addTestNotApprovedTxTrace = true ∧
    receiptsAwaited mintTestERC20TokenTxTrace = true ∧
    receiptsAwaited deployUpgradeGatekeeperTxTrace = true ∧
    receiptsAwaited deployGovernanceTxTrace = true ∧
    receiptsAwaited deployVerifierTxTrace = true ∧
    receiptsAwaited deployFranklinTxTrace = true := by decide

/-- Counting polls past a leading poll event. -/
theorem countPolls_cons_poll (s : String) (l : List PubEv) :
    countPolls (PubEv.pollStatus s :: l) = countPolls l + 1 := by
  simp [countPolls, List.countP_cons]

/-- Counting polls past a leading sleep event. -/
theorem countPolls_cons_sleep (m : Nat) (l : List PubEv) :
    countPolls (PubEv.sleepMs m :: l) = countPolls l := by
  simp [countPolls, List.countP_cons]

/-- The polling loop performs at most `b` polls when its budget is `b`. -/
theorem countPolls_pollTrace_le (get : Nat → String) (idx b : Nat) :
    countPolls (pollTrace get idx b) ≤ b := by
  induction b generalizing idx with
  | zero => simp [pollTrace, countPolls]
  | succ n ih =>
    cases hc : strIncludes (get idx) pendingStr with
    | false =>
      simp only [pollTrace, hc, Bool.false_eq_true, if_false]
      rw [countPolls_cons_poll]
      have : countPolls ([] : List PubEv) = 0 := rfl
      omega
    | true =>
      simp only [pollTrace, hc, if_true]
      rw [countPolls_cons_poll, countPolls_cons_sleep]
      have := ih (idx + 1)
      omega

/-- Every sleep inside the polling loop is the fixed 5000 ms delay. -/
theorem pollTrace_sleep_5000 (get : Nat → String) :
    ∀ b idx ms, PubEv.sleepMs ms ∈ pollTrace get idx b → ms = 5000 := by
  intro b
  induction b with
  | zero =>
    intro idx ms h
    simp [pollTrace] at h
  | succ n ih =>
    intro idx ms h
    cases hc : strIncludes (get idx) pendingStr with
    | false =>
      rw [pollTrace, hc] at h
      simp at h
    | true =>
      rw [pollTrace, hc] at h
      simp only [if_true, List.mem_cons] at h
      rcases h with h | h | h
      · cases h
      · cases h
        rfl
      · exact ih (idx + 1) ms h

/-- The polling loop stops at the first non-pending result: if the first
`k` results are still pending and the `k`-th is not (with `k` below the
budget), exactly `k + 1` polls happen. -/
theorem pollTrace_early_stop (get : Nat → String) :
    ∀ b idx k, k < b →
      (∀ i, i < k → strIncludes (get (idx + i)) pendingStr = true) →
      strIncludes (get (idx + k)) pendingStr = false →
      countPolls (pollTrace get idx b) = k + 1 := by
  intro b
  induction b with
  | zero =>
    intro idx k hk _ _
    exact absurd hk (Nat.not_lt_zero k)
  | succ n ih =>
    intro idx k hk hpend hstop
    cases k with
    | zero =>
      have h0 : strIncludes (get idx) pendingStr = false := by simpa using hstop
      simp only [pollTrace, h0, Bool.false_eq_true, if_false]
      rw [countPolls_cons_poll]
      rfl
    | succ k2 =>
      have h0 : strIncludes (get idx) pendingStr = true := by
        have := hpend 0 (Nat.succ_pos k2)
        simpa using this
      simp only [pollTrace, h0, if_true]
      rw [countPolls_cons_poll, countPolls_cons_sleep]
      have ihx := ih (idx + 1) k2 (by omega)
        (fun i hi => by
          have h2 := hpend (i + 1) (by omega)
          rw [show idx + 1 + i = idx + (i + 1) from by omega]
          exact h2)
        (by
          rw [show idx + 1 + k2 = idx + (k2 + 1) from by omega]
          exact hstop)
      omega

/-- The response oracle of a backend that never indexes the contract:
every `verifysourcecode` submission fails with the
`'Unable to locate ContractCode'` result. -/
def alwaysUnable : Nat → EsResponse :=
  fun _ => ⟨0, "Unable to locate ContractCode"⟩

/-- C1 (code bug): when every `verifysourcecode` submission returns a
non-1 status whose result contains `'Unable to locate ContractCode'`,
`publishSourceCodeToEtherscan` never terminates — for every recursion
bound it runs out of fuel, because the local `retriesLeft = 20` is
re-initialised on each recursive invocation, so the `retriesLeft > 0`
guard never fails and the retry count is unbounded (the claimed cap of 20
retries in total does not exist in the code). -/
theorem publish_retry_unbounded (get : Nat → String) (fuel pIdx : Nat) :
    (publishGo alwaysUnable get pIdx fuel).1 = PubOutcome.fuelOut := by
  induction fuel generalizing pIdx with
  | zero => rfl
  | succ f ih =>
    have hstep : (publishGo alwaysUnable get pIdx (f + 1)).1 =
        (publishGo alwaysUnable get (pIdx + 1) f).1 := rfl
    rw [hstep]
    exact ih (pIdx + 1)

/-- C6: after a successful submission (`status = 1`),
`publishSourceCodeToEtherscan` runs the `checkverifystatus` polling loop:
at most 10 polls, every delay in the loop is the fixed 5000 ms sleep, and
polling stops as soon as a result no longer contains
`'Pending in queue'` (with the final status logged afterwards). -/
theorem publish_success_polling (post : Nat → EsResponse) (get : Nat → String)
    (fuel : Nat) (hf : 0 < fuel) (hs : (post 0).status = 1) :
    (publishGo post get 0 fuel).2 =
      PubEv.submit 0 (post 0) :: pollTrace get 0 10
        ++ [PubEv.logPublished (lastPollResult (pollTrace get 0 10))] ∧
    countPolls (pollTrace get 0 10) ≤ 10 ∧
    (∀ ms, PubEv.sleepMs ms ∈ pollTrace get 0 10 → ms = 5000) ∧
    (∀ k, k < 10 → (∀ i, i < k → strIncludes (get i) pendingStr = true) →
      strIncludes (get k) pendingStr = false →
      countPolls (pollTrace get 0 10) = k + 1) := by
  obtain ⟨f, rfl⟩ : ∃ f, fuel = f + 1 := ⟨fuel - 1, by omega⟩
  refine ⟨?_, countPolls_pollTrace_le get 0 10,
    fun ms hm => pollTrace_sleep_5000 get 10 0 ms hm,
    fun k hk hp hstop => ?_⟩
  · simp [publishGo, hs]
  · exact pollTrace_early_stop get 10 0 k hk
      (fun i hi => by simpa using hp i hi) (by simpa using hstop)

/-- Success-response oracle used in the C6 witness. -/
def postW : Nat → EsResponse := fun _ => ⟨1, "OK"⟩

/-- Poll-result oracle used in the witnesses: pending once, then done. -/
def getW : Nat → String :=
  fun i => if i = 0 then "Pending in queue" else "Pass - Verified"

/-- Witness for C6 at a concrete successful submission. -/
theorem publish_success_polling_witness :
    (publishGo postW getW 0 1).2 =
      PubEv.submit 0 (postW 0) :: pollTrace getW 0 10
        ++ [PubEv.logPublished (lastPollResult (pollTrace getW 0 10))] ∧
    countPolls (pollTrace getW 0 10) ≤ 10 :=
  ⟨(publish_success_polling postW getW 1 (by decide) rfl).1,
   (publish_success_polling postW getW 1 (by decide) rfl).2.1⟩

/-- C7: when the submission fails (`status ≠ 1`) with a result that does
not contain `'Unable to locate ContractCode'`, the function performs
exactly one submission, logs the response data verbatim, does not retry,
and returns normally (outcome `done`, not an error). -/
theorem publish_failure_logged_no_retry (post : Nat → EsResponse)
    (get : Nat → String) (fuel : Nat) (hf : 0 < fuel)
    (hs : (post 0).status ≠ 1)
    (hu : strIncludes (post 0).result unableStr = false) :
    publishGo post get 0 fuel =
      (PubOutcome.done, [PubEv.submit 0 (post 0), PubEv.logProblem (post 0)]) := by
  obtain ⟨f, rfl⟩ : ∃ f, fuel = f + 1 := ⟨fuel - 1, by omega⟩
  simp [publishGo, hs, hu]

/-- Failure-response oracle used in the C7 witness. -/
def postW7 : Nat → EsResponse := fun _ => ⟨0, "Invalid API Key"⟩

/-- Witness for C7 at a concrete failed submission whose result does not
mention `'Unable to locate ContractCode'`. -/
theorem publish_failure_logged_no_retry_witness :
    publishGo postW7 getW 0 1 =
      (PubOutcome.done, [PubEv.submit 0 (postW7 0), PubEv.logProblem (postW7 0)]) :=
  publish_failure_logged_no_retry postW7 getW 1 (by decide) (by decide) (by decide)

end ZkDeploy
